import Mathlib

/-
Verification of the nonprofit/grant analysis store (src/src/database.py).

The module has two parts: a loader (DatabaseManager.create_database and
DatabaseManager.get_table_info) that materialises CSV files as tables of a
SQLite store, and a catalog of SQL query templates (class SQLQueries) that are
executed against those tables.  We embed both shallowly: a table is a list of
typed rows (SQL NULL is Option.none, SQL text is String, SQL numerics are
rationals), and each query template is translated clause by clause into a
function from table contents to result rows, following SQLite semantics for
NULL handling, GROUP BY, aggregates, ORDER BY and LIMIT.
-/

/-- Distinct elements of a list in first-occurrence order: the set of grouping
keys a GROUP BY produces, one per distinct key value. -/
def uniqKeys {κ : Type} [DecidableEq κ] (l : List κ) : List κ :=
  l.foldl (fun acc k => if k ∈ acc then acc else acc ++ [k]) []

/-- GROUP BY semantics: one group per distinct key value, each group holding
every row with that key. -/
def groupBy {α κ : Type} [DecidableEq κ] (key : α → κ) (l : List α) : List (κ × List α) :=
  (uniqKeys (l.map key)).map fun k => (k, l.filter fun x => decide (key x = k))

/-- SQL AVG: ignores NULL inputs and returns NULL when no non-NULL input exists. -/
def sqlAvg (xs : List (Option ℚ)) : Option ℚ :=
  let vs := xs.filterMap id
  if vs.length = 0 then none else some (vs.sum / vs.length)

/-- SQL SUM: ignores NULL inputs and returns NULL when no non-NULL input exists. -/
def sqlSum (xs : List (Option ℚ)) : Option ℚ :=
  let vs := xs.filterMap id
  if vs.length = 0 then none else some vs.sum

/-- SQL MIN over the non-NULL values, NULL when there are none. -/
def sqlMin (xs : List (Option ℚ)) : Option ℚ :=
  (xs.filterMap id).foldl
    (fun acc v =>
      match acc with
      | none => some v
      | some m => some (min m v)) none

/-- SQL MAX over the non-NULL values, NULL when there are none. -/
def sqlMax (xs : List (Option ℚ)) : Option ℚ :=
  (xs.filterMap id).foldl
    (fun acc v =>
      match acc with
      | none => some v
      | some m => some (max m v)) none

/-- SQL COUNT(DISTINCT e): the number of distinct non-NULL values of e. -/
def sqlCountDistinct (xs : List (Option String)) : Nat :=
  (uniqKeys (xs.filterMap id)).length

/-- SQLite LIMIT k for an integer k substituted into the query text: a negative
limit means no upper bound on the number of rows returned. -/
def sqlLimit {α : Type} (k : Int) (l : List α) : List α :=
  if k < 0 then l else l.take k.toNat

/-- SQL equality used as a join condition on EIN: NULL compares with nothing,
so a NULL key matches no row. -/
def einEq (a b : Option String) : Bool :=
  match a, b with
  | some x, some y => x == y
  | _, _ => false

/-- Bytewise (SQLite BINARY collation) comparison of text, on character lists;
ISO date strings compare chronologically this way. -/
def charListLe : List Char → List Char → Bool
  | [], _ => true
  | _ :: _, [] => false
  | a :: as, b :: bs => if a < b then true else if b < a then false else charListLe as bs

/-- Text comparison s <= t under SQLite BINARY collation. -/
def strLe (s t : String) : Bool := charListLe s.data t.data

/-- The filter close_date >= date('now'), with the execution date passed in as
a parameter: a NULL close_date compares as unknown and is excluded. -/
def dateOnOrAfter (d : Option String) (today : String) : Bool :=
  match d with
  | some s => strLe today s
  | none => false

/-- SQLite ROUND(x, 2): round to two decimal places, halves away from zero. -/
def round2 (q : ℚ) : ℚ :=
  ((if 0 ≤ q then ⌊q * 100 + 1 / 2⌋ else -⌊-(q * 100) + 1 / 2⌋ : ℤ) : ℚ) / 100

/-- One row of the grants table (the columns the catalog queries read). -/
structure GrantRow where
  opportunity_id : Option String
  opportunity_title : Option String
  agency_name : Option String
  award_ceiling : Option ℚ
  award_floor : Option ℚ
  estimated_total_program_funding : Option ℚ
  close_date : Option String
  opportunity_category : Option String
deriving DecidableEq

/-- One row of the non_profits table. -/
structure NonProfitRow where
  EIN : Option String
  STATE : Option String
  CLASSIFICATION : Option String
  INCOME_AMT : Option ℚ
  ASSET_AMT : Option ℚ
  REVENUE_AMT : Option ℚ
deriving DecidableEq

/-- One row of the non_profits_final table. -/
structure NonProfitFinalRow where
  EIN : Option String
  NAME : Option String
  STATE : Option String
  CITY : Option String
  CLASSIFICATION : Option String
  impact_score_numeric : Option ℚ
  financial_metric : Option ℚ
  impact_efficiency : Option ℚ
  INCOME_AMT : Option ℚ
  ASSET_AMT : Option ℚ
deriving DecidableEq

/-- One row of the nonprofit_anomalies table. -/
structure AnomalyRow where
  EIN : Option String
  is_anomalous : Option ℚ
  anomaly_type : Option String
  risk_level : Option String
  anomaly_score : Option ℚ
deriving DecidableEq

/-- One row of the nonprofit_quality table. -/
structure QualityRow where
  EIN : Option String
  data_quality : Option String
  confidence_score : Option ℚ
  has_mission : Option ℚ
  has_financial : Option ℚ
  has_impact : Option ℚ
deriving DecidableEq

/-- A result row of SQLQueries.top_grants_by_funding. -/
structure TopGrantRow where
  opportunity_title : Option String
  agency_name : Option String
  award_ceiling : Option ℚ
  award_floor : Option ℚ
  estimated_total_program_funding : Option ℚ
  close_date : Option String
deriving DecidableEq

/-- A result row of SQLQueries.nonprofits_by_state. -/
structure StateRow where
  STATE : Option String
  org_count : Nat
  avg_income : Option ℚ
  avg_assets : Option ℚ
  avg_revenue : Option ℚ
  total_income : Option ℚ
deriving DecidableEq

/-- A result row of SQLQueries.anomaly_summary. -/
structure AnomalySummaryRow where
  anomaly_type : Option String
  risk_level : Option String
  anomaly_count : Nat
  avg_anomaly_score : Option ℚ
  min_score : Option ℚ
  max_score : Option ℚ
deriving DecidableEq

/-- A result row of SQLQueries.data_quality_overview.  The SELECT list has the
three flag counts plus a single percentage column, mission_pct. -/
structure QualityOverviewRow where
  data_quality : Option String
  org_count : Nat
  avg_confidence : Option ℚ
  orgs_with_mission : ℚ
  orgs_with_financial : ℚ
  orgs_with_impact : ℚ
  mission_pct : ℚ
deriving DecidableEq

/-- A result row of SQLQueries.top_performers. -/
structure PerformerRow where
  NAME : Option String
  STATE : Option String
  CITY : Option String
  CLASSIFICATION : Option String
  impact_score_numeric : Option ℚ
  financial_metric : Option ℚ
  impact_efficiency : Option ℚ
  INCOME_AMT : Option ℚ
  ASSET_AMT : Option ℚ
  confidence_score : Option ℚ
deriving DecidableEq

/-- A result row of SQLQueries.high_risk_organizations. -/
structure HighRiskRow where
  NAME : Option String
  STATE : Option String
  CLASSIFICATION : Option String
  impact_score_numeric : Option ℚ
  anomaly_type : Option String
  risk_level : Option String
  anomaly_score : Option ℚ
  INCOME_AMT : Option ℚ
  ASSET_AMT : Option ℚ
deriving DecidableEq

/-- A result row of SQLQueries.grant_nonprofit_matching. -/
structure MatchRow where
  opportunity_title : Option String
  agency_name : Option String
  opportunity_category : Option String
  award_ceiling : Option ℚ
  eligible_nonprofits : Nat
  avg_impact_of_eligible : Option ℚ
deriving DecidableEq

/-- Ordering of nullable numerics used by ORDER BY: NULL sorts below every
value in SQLite. -/
def nullLe (a b : Option ℚ) : Prop :=
  match a, b with
  | none, _ => True
  | some _, none => False
  | some x, some y => x ≤ y

instance : DecidableRel nullLe := fun a b => by
  unfold nullLe
  cases a <;> cases b <;> infer_instance

/-- ORDER BY award_ceiling DESC of top_grants_by_funding. -/
def ceilingDesc (a b : TopGrantRow) : Prop := nullLe b.award_ceiling a.award_ceiling

instance : DecidableRel ceilingDesc := fun a b =>
  inferInstanceAs (Decidable (nullLe b.award_ceiling a.award_ceiling))

/-- ORDER BY org_count DESC of nonprofits_by_state. -/
def orgCountDesc (a b : StateRow) : Prop := b.org_count ≤ a.org_count

instance : DecidableRel orgCountDesc := fun _ _ => Nat.decLe _ _

/-- ORDER BY anomaly_count DESC of anomaly_summary. -/
def anomalyCountDesc (a b : AnomalySummaryRow) : Prop := b.anomaly_count ≤ a.anomaly_count

instance : DecidableRel anomalyCountDesc := fun _ _ => Nat.decLe _ _

/-- The ORDER BY CASE expression of data_quality_overview: a fixed precedence
of the quality tiers, any unlisted value (NULL included) sorting last. -/
def qualityTier (dq : Option String) : Nat :=
  match dq with
  | some "high" => 1
  | some "medium" => 2
  | some "low" => 3
  | _ => 4

/-- Row ordering induced by the tier CASE expression. -/
def tierLe (a b : QualityOverviewRow) : Prop :=
  qualityTier a.data_quality ≤ qualityTier b.data_quality

instance : DecidableRel tierLe := fun _ _ => Nat.decLe _ _

instance : IsTotal QualityOverviewRow tierLe :=
  ⟨fun _ _ => Nat.le_total _ _⟩

instance : IsTrans QualityOverviewRow tierLe :=
  ⟨fun _ _ _ => Nat.le_trans⟩

/-- ORDER BY nf.impact_score_numeric DESC of top_performers. -/
def impactDesc (a b : PerformerRow) : Prop :=
  nullLe b.impact_score_numeric a.impact_score_numeric

instance : DecidableRel impactDesc := fun a b =>
  inferInstanceAs (Decidable (nullLe b.impact_score_numeric a.impact_score_numeric))

/-- ORDER BY na.anomaly_score DESC of high_risk_organizations. -/
def anomalyScoreDesc (a b : HighRiskRow) : Prop :=
  nullLe b.anomaly_score a.anomaly_score

instance : DecidableRel anomalyScoreDesc := fun a b =>
  inferInstanceAs (Decidable (nullLe b.anomaly_score a.anomaly_score))

/-- ORDER BY g.award_ceiling DESC of grant_nonprofit_matching. -/
def matchCeilingDesc (a b : MatchRow) : Prop := nullLe b.award_ceiling a.award_ceiling

instance : DecidableRel matchCeilingDesc := fun a b =>
  inferInstanceAs (Decidable (nullLe b.award_ceiling a.award_ceiling))

/-- SQLQueries.top_grants_by_funding(limit) executed against the grants table:
grants with a non-NULL award_ceiling, descending by award_ceiling, at most
limit rows. -/
def top_grants_by_funding (limit : Int) (grants : List GrantRow) : List TopGrantRow :=
  sqlLimit limit (List.insertionSort ceilingDesc
    ((grants.filter fun g => g.award_ceiling.isSome).map fun g =>
      { opportunity_title := g.opportunity_title
        agency_name := g.agency_name
        award_ceiling := g.award_ceiling
        award_floor := g.award_floor
        estimated_total_program_funding := g.estimated_total_program_funding
        close_date := g.close_date }))

/-- SQLQueries.nonprofits_by_state executed against the non_profits table:
rows with a non-NULL, non-empty STATE grouped by STATE, counted and averaged,
descending by count, at most 20 rows. -/
def nonprofits_by_state (non_profits : List NonProfitRow) : List StateRow :=
  sqlLimit 20 (List.insertionSort orgCountDesc
    ((groupBy (fun r => r.STATE)
        (non_profits.filter fun r => r.STATE.isSome && decide (r.STATE ≠ some ""))).map fun kg =>
      { STATE := kg.1
        org_count := kg.2.length
        avg_income := sqlAvg (kg.2.map fun r => r.INCOME_AMT)
        avg_assets := sqlAvg (kg.2.map fun r => r.ASSET_AMT)
        avg_revenue := sqlAvg (kg.2.map fun r => r.REVENUE_AMT)
        total_income := sqlSum (kg.2.map fun r => r.INCOME_AMT) }))

/-- SQLQueries.anomaly_summary executed against the nonprofit_anomalies table:
rows with is_anomalous = 1 grouped by (anomaly_type, risk_level), counted and
aggregated over anomaly_score, descending by count. -/
def anomaly_summary (nonprofit_anomalies : List AnomalyRow) : List AnomalySummaryRow :=
  List.insertionSort anomalyCountDesc
    ((groupBy (fun r => (r.anomaly_type, r.risk_level))
        (nonprofit_anomalies.filter fun r => decide (r.is_anomalous = some 1))).map fun kg =>
      { anomaly_type := kg.1.1
        risk_level := kg.1.2
        anomaly_count := kg.2.length
        avg_anomaly_score := sqlAvg (kg.2.map fun r => r.anomaly_score)
        min_score := sqlMin (kg.2.map fun r => r.anomaly_score)
        max_score := sqlMax (kg.2.map fun r => r.anomaly_score) })

/-- SQLQueries.data_quality_overview executed against the nonprofit_quality
table: grouped by data_quality, counting rows and each flag via
SUM(CASE WHEN flag = 1 THEN 1 ELSE 0 END), averaging confidence_score, and
computing ROUND(AVG(CASE WHEN has_mission = 1 THEN 1 ELSE 0 END) * 100, 2) as
mission_pct; ordered by the tier CASE expression.  Every GROUP BY group is
nonempty, so SUM and AVG of the never-NULL CASE expression are plain sum and
sum over length here. -/
def data_quality_overview (nonprofit_quality : List QualityRow) : List QualityOverviewRow :=
  List.insertionSort tierLe
    ((groupBy (fun r => r.data_quality) nonprofit_quality).map fun kg =>
      { data_quality := kg.1
        org_count := kg.2.length
        avg_confidence := sqlAvg (kg.2.map fun r => r.confidence_score)
        orgs_with_mission := (kg.2.map fun r => if r.has_mission = some 1 then (1 : ℚ) else 0).sum
        orgs_with_financial := (kg.2.map fun r => if r.has_financial = some 1 then (1 : ℚ) else 0).sum
        orgs_with_impact := (kg.2.map fun r => if r.has_impact = some 1 then (1 : ℚ) else 0).sum
        mission_pct :=
          round2 (((kg.2.map fun r => if r.has_mission = some 1 then (1 : ℚ) else 0).sum
            / kg.2.length) * 100) })

/-- A SELECT row of top_performers built from an org row and its (optional)
LEFT JOIN partner from nonprofit_quality: with no partner, confidence_score is
NULL. -/
def performerRow (nf : NonProfitFinalRow) (nq : Option QualityRow) : PerformerRow :=
  { NAME := nf.NAME
    STATE := nf.STATE
    CITY := nf.CITY
    CLASSIFICATION := nf.CLASSIFICATION
    impact_score_numeric := nf.impact_score_numeric
    financial_metric := nf.financial_metric
    impact_efficiency := nf.impact_efficiency
    INCOME_AMT := nf.INCOME_AMT
    ASSET_AMT := nf.ASSET_AMT
    confidence_score :=
      match nq with
      | none => none
      | some q => q.confidence_score }

/-- SQLQueries.top_performers before its LIMIT clause: the LEFT JOIN of
non_profits_final to nonprofit_quality on EIN (an org with no matching quality
row is kept, paired with NULL), filtered to non-NULL impact_score_numeric and
sorted descending by it. -/
def top_performers_rows (non_profits_final : List NonProfitFinalRow)
    (nonprofit_quality : List QualityRow) : List PerformerRow :=
  List.insertionSort impactDesc
    ((non_profits_final.flatMap fun nf =>
        match nonprofit_quality.filter fun q => einEq nf.EIN q.EIN with
        | [] => [performerRow nf none]
        | qs => qs.map fun q => performerRow nf (some q)).filter
      fun r => r.impact_score_numeric.isSome)

/-- SQLQueries.top_performers(limit) executed against the store. -/
def top_performers (limit : Int) (non_profits_final : List NonProfitFinalRow)
    (nonprofit_quality : List QualityRow) : List PerformerRow :=
  sqlLimit limit (top_performers_rows non_profits_final nonprofit_quality)

/-- A SELECT row of high_risk_organizations built from an INNER JOIN pair. -/
def highRiskRow (nf : NonProfitFinalRow) (na : AnomalyRow) : HighRiskRow :=
  { NAME := nf.NAME
    STATE := nf.STATE
    CLASSIFICATION := nf.CLASSIFICATION
    impact_score_numeric := nf.impact_score_numeric
    anomaly_type := na.anomaly_type
    risk_level := na.risk_level
    anomaly_score := na.anomaly_score
    INCOME_AMT := nf.INCOME_AMT
    ASSET_AMT := nf.ASSET_AMT }

/-- SQLQueries.high_risk_organizations executed against the store: the INNER
JOIN of non_profits_final to nonprofit_anomalies on EIN (an org with no
matching anomaly row produces nothing), restricted to is_anomalous = 1 and
risk_level = high, descending by anomaly_score, at most 50 rows. -/
def high_risk_organizations (non_profits_final : List NonProfitFinalRow)
    (nonprofit_anomalies : List AnomalyRow) : List HighRiskRow :=
  sqlLimit 50 (List.insertionSort anomalyScoreDesc
    (((non_profits_final.flatMap fun nf =>
        (nonprofit_anomalies.filter fun na => einEq nf.EIN na.EIN).map fun na => (nf, na)).filter
      fun p => decide (p.2.is_anomalous = some 1) && decide (p.2.risk_level = some "high")).map
      fun p => highRiskRow p.1 p.2))

/-- SQLQueries.grant_nonprofit_matching before its HAVING, ORDER BY and LIMIT
clauses: the CROSS JOIN of grants and non_profits_final filtered by the WHERE
clause (non-NULL award_ceiling, non-NULL impact_score_numeric, close_date on
or after the execution date), grouped by the grant key columns, one aggregate
row per group. -/
def grant_matching_groups (today : String) (grants : List GrantRow)
    (non_profits_final : List NonProfitFinalRow) : List MatchRow :=
  (groupBy
      (fun p : GrantRow × NonProfitFinalRow =>
        (p.1.opportunity_id, p.1.opportunity_title, p.1.agency_name,
          p.1.opportunity_category, p.1.award_ceiling))
      ((grants.flatMap fun g => non_profits_final.map fun nf => (g, nf)).filter fun p =>
        p.1.award_ceiling.isSome && p.2.impact_score_numeric.isSome
          && dateOnOrAfter p.1.close_date today)).map fun kg =>
    { opportunity_title := kg.1.2.1
      agency_name := kg.1.2.2.1
      opportunity_category := kg.1.2.2.2.1
      award_ceiling := kg.1.2.2.2.2
      eligible_nonprofits := sqlCountDistinct (kg.2.map fun p => p.2.EIN)
      avg_impact_of_eligible := sqlAvg (kg.2.map fun p => p.2.impact_score_numeric) }

/-- SQLQueries.grant_nonprofit_matching executed against the store, HAVING
eligible_nonprofits > 0 included, descending by award_ceiling, at most 20
rows. -/
def grant_nonprofit_matching (today : String) (grants : List GrantRow)
    (non_profits_final : List NonProfitFinalRow) : List MatchRow :=
  sqlLimit 20 (List.insertionSort matchCeilingDesc
    ((grant_matching_groups today grants non_profits_final).filter fun r =>
      decide (0 < r.eligible_nonprofits)))

/-- The same query text with the HAVING clause removed, for comparison. -/
def grant_nonprofit_matching_without_having (today : String) (grants : List GrantRow)
    (non_profits_final : List NonProfitFinalRow) : List MatchRow :=
  sqlLimit 20 (List.insertionSort matchCeilingDesc
    (grant_matching_groups today grants non_profits_final))

/-- A parsed delimited source file: the first row gives the column headers,
every subsequent row is one record. -/
structure CsvFile where
  header : List String
  rows : List (List String)
deriving DecidableEq

/-- The relational store: table name to table content, absent tables as none. -/
abbrev Store := String → Option CsvFile

/-- A source directory: filename to parsed file content when the file exists. -/
abbrev SourceDir := String → Option CsvFile

/-- The fixed logical-name to filename map iterated by create_database. -/
def csv_files : List (String × String) :=
  [("grants", "grants.csv"),
   ("grants_final", "grants_final.csv"),
   ("non_profits", "non-profits.csv"),
   ("non_profits_final", "non-profits_final.csv"),
   ("nonprofit_anomalies", "nonprofit_anomalies.csv"),
   ("nonprofit_quality", "nonprofit_quality.csv")]

/-- The outcome of a load pass: the mutated store and the warnings printed for
missing source files. -/
structure LoadResult where
  store : Store
  warnings : List String

/-- The loop body of create_database for one (table name, filename) pair: a
present file is written as a table under the logical name, replacing any
existing table of that name in full (pandas to_sql with if_exists replace); a
missing file only appends a warning and the loop continues. -/
def load_step (dir : SourceDir) (acc : LoadResult) (p : String × String) : LoadResult :=
  match dir p.2 with
  | some csv => { acc with store := Function.update acc.store p.1 (some csv) }
  | none => { acc with warnings := acc.warnings ++ [p.2] }

/-- The create_database loop folded over a table map. -/
def load_fold (dir : SourceDir) (pairs : List (String × String)) (acc : LoadResult) : LoadResult :=
  pairs.foldl (load_step dir) acc

/-- One full pass of the create_database loop over the six configured pairs,
starting from a given store. -/
def load_pass (dir : SourceDir) (store0 : Store) : LoadResult :=
  load_fold dir csv_files { store := store0, warnings := [] }

/-- DatabaseManager.create_database run against a fresh store (the database
file did not exist before the pass). -/
def create_database (dir : SourceDir) : LoadResult :=
  load_pass dir fun _ => none

/-- The record DatabaseManager.get_table_info returns: COUNT(*), the PRAGMA
table_info column descriptors, and the SELECT * LIMIT 5 sample. -/
structure TableInfo where
  row_count : Nat
  columns : List String
  sample_data : List (List String)
deriving DecidableEq

/-- DatabaseManager.get_table_info on a store: none models the table-not-found
error surfaced when the named table does not exist. -/
def get_table_info (store : Store) (table_name : String) : Option TableInfo :=
  (store table_name).map fun t =>
    { row_count := t.rows.length
      columns := t.header
      sample_data := t.rows.take 5 }

/-- A nonprofit_quality table on which the financial presence percentage is 25
while the query output nowhere contains 25: all four rows are one group, every
row has has_mission = 1, exactly one has has_financial = 1, none has
has_impact = 1, and every confidence_score is 7. -/
def quality_cx : List QualityRow :=
  [{ EIN := some "1", data_quality := some "high", confidence_score := some 7,
     has_mission := some 1, has_financial := some 1, has_impact := some 0 },
   { EIN := some "2", data_quality := some "high", confidence_score := some 7,
     has_mission := some 1, has_financial := some 0, has_impact := some 0 },
   { EIN := some "3", data_quality := some "high", confidence_score := some 7,
     has_mission := some 1, has_financial := some 0, has_impact := some 0 },
   { EIN := some "4", data_quality := some "high", confidence_score := some 7,
     has_mission := some 1, has_financial := some 0, has_impact := some 0 }]

/-- The single row data_quality_overview produces on quality_cx. -/
def quality_cx_row : QualityOverviewRow :=
  { data_quality := some "high", org_count := 4, avg_confidence := some 7,
    orgs_with_mission := 4, orgs_with_financial := 1, orgs_with_impact := 0,
    mission_pct := 100 }

/-- A one-row nonprofit_quality table used to instantiate the per-group
reporting theorem at a concrete group. -/
def quality_w : List QualityRow :=
  [{ EIN := some "e", data_quality := some "low", confidence_score := none,
     has_mission := some 1, has_financial := some 0, has_impact := some 0 }]

/-- The single row data_quality_overview produces on quality_w. -/
def quality_w_row : QualityOverviewRow :=
  { data_quality := some "low", org_count := 1, avg_confidence := none,
    orgs_with_mission := 1, orgs_with_financial := 0, orgs_with_impact := 0,
    mission_pct := 100 }

/-- A grants table with a single qualifying row (non-NULL award_ceiling). -/
def grant_cx : GrantRow :=
  { opportunity_id := some "g1", opportunity_title := some "t", agency_name := some "a",
    award_ceiling := some 5, award_floor := none,
    estimated_total_program_funding := none, close_date := some "2030-01-01",
    opportunity_category := some "c" }

/-- The non_profits table of the aggregate-correctness scenario: three CA rows
with incomes 10, 20, 30 and one NY row with income 5. -/
def non_profits_c8 : List NonProfitRow :=
  [{ EIN := some "10", STATE := some "CA", CLASSIFICATION := none,
     INCOME_AMT := some 10, ASSET_AMT := none, REVENUE_AMT := none },
   { EIN := some "11", STATE := some "CA", CLASSIFICATION := none,
     INCOME_AMT := some 20, ASSET_AMT := none, REVENUE_AMT := none },
   { EIN := some "12", STATE := some "CA", CLASSIFICATION := none,
     INCOME_AMT := some 30, ASSET_AMT := none, REVENUE_AMT := none },
   { EIN := some "20", STATE := some "NY", CLASSIFICATION := none,
     INCOME_AMT := some 5, ASSET_AMT := none, REVENUE_AMT := none }]

/-- An anomaly row with is_anomalous = 0 whose other fields match a high-risk
group. -/
def anomaly_cx : AnomalyRow :=
  { EIN := some "e", is_anomalous := some 0, anomaly_type := some "t",
    risk_level := some "high", anomaly_score := some 9 }

/-- A non_profits_final row with a non-NULL impact score and a non-NULL EIN. -/
def nf_w : NonProfitFinalRow :=
  { EIN := some "x", NAME := some "n", STATE := some "CA", CITY := some "c",
    CLASSIFICATION := some "k", impact_score_numeric := some 3,
    financial_metric := none, impact_efficiency := none,
    INCOME_AMT := none, ASSET_AMT := none }

/-- A source directory containing only grants.csv. -/
def csv_w : CsvFile :=
  { header := ["a", "b"], rows := [["1", "2"], ["3", "4"]] }

/-- A source directory exposing csv_w as grants.csv and nothing else. -/
def dir_w : SourceDir :=
  fun fn => if fn = "grants.csv" then some csv_w else none

theorem mem_foldl_uniq {κ : Type} [DecidableEq κ] (l : List κ) (acc : List κ) (a : κ) :
    a ∈ l.foldl (fun acc k => if k ∈ acc then acc else acc ++ [k]) acc ↔ a ∈ acc ∨ a ∈ l := by
  induction l generalizing acc with
  | nil => simp
  | cons k t ih =>
    rw [List.foldl_cons, ih]
    by_cases hk : k ∈ acc
    · simp only [if_pos hk, List.mem_cons]
      constructor
      · rintro (h | h)
        · exact Or.inl h
        · exact Or.inr (Or.inr h)
      · rintro (h | rfl | h)
        · exact Or.inl h
        · exact Or.inl hk
        · exact Or.inr h
    · simp only [if_neg hk, List.mem_append, List.mem_singleton, List.mem_cons]
      tauto

theorem mem_uniqKeys {κ : Type} [DecidableEq κ] {l : List κ} {a : κ} :
    a ∈ uniqKeys l ↔ a ∈ l := by
  unfold uniqKeys
  rw [mem_foldl_uniq]
  simp

theorem mem_groupBy {α κ : Type} [DecidableEq κ] {key : α → κ} {l : List α}
    {kg : κ × List α} (h : kg ∈ groupBy key l) :
    kg.2 = (l.filter fun x => decide (key x = kg.1)) ∧ ∃ x ∈ l, key x = kg.1 := by
  unfold groupBy at h
  rcases List.mem_map.mp h with ⟨k, hk, hEq⟩
  cases hEq
  refine ⟨rfl, ?_⟩
  exact List.mem_map.mp (mem_uniqKeys.mp hk)

theorem sum_ite_one_eq_countP {α : Type} (p : α → Prop) [DecidablePred p] (l : List α) :
    (l.map fun r => if p r then (1 : ℚ) else 0).sum = l.countP fun r => decide (p r) := by
  induction l with
  | nil => simp
  | cons a t ih =>
    simp only [List.map_cons, List.sum_cons, List.countP_cons, ih]
    by_cases h : p a
    · simp only [if_pos h, decide_eq_true_eq, h, if_true]
      push_cast
      ring
    · simp [h]

theorem sqlLimit_eq_of_length_le {α : Type} {k : Int} {l : List α}
    (h : (l.length : Int) ≤ k) : sqlLimit k l = l := by
  unfold sqlLimit
  split_ifs with hk
  · rfl
  · exact List.take_of_length_le (by omega)

theorem length_sqlLimit_le {α : Type} (k : Int) (hk : 0 ≤ k) (l : List α) :
    ((sqlLimit k l).length : Int) ≤ k := by
  unfold sqlLimit
  split_ifs with h
  · omega
  · have := List.length_take_le k.toNat l
    omega

theorem mem_of_mem_sqlLimit {α : Type} {k : Int} {l : List α} {a : α}
    (h : a ∈ sqlLimit k l) : a ∈ l := by
  unfold sqlLimit at h
  split_ifs at h
  · exact h
  · exact List.take_subset _ _ h

theorem load_step_store_ne (dir : SourceDir) (acc : LoadResult) (p : String × String)
    (tn : String) (h : tn ≠ p.1) : (load_step dir acc p).store tn = acc.store tn := by
  unfold load_step
  cases dir p.2
  · rfl
  · exact Function.update_noteq h _ _

theorem load_fold_store_of_not_mem (dir : SourceDir) (pairs : List (String × String))
    (tn : String) : ∀ acc : LoadResult, tn ∉ pairs.map Prod.fst →
    (load_fold dir pairs acc).store tn = acc.store tn := by
  induction pairs with
  | nil =>
    intro acc _
    rfl
  | cons p t ih =>
    intro acc h
    simp only [List.map_cons, List.mem_cons, not_or] at h
    rw [show load_fold dir (p :: t) acc = load_fold dir t (load_step dir acc p) from rfl,
      ih _ h.2, load_step_store_ne dir acc p tn h.1]

theorem load_fold_store_of_mem (dir : SourceDir) (pairs : List (String × String))
    (tn fn : String) : ∀ acc : LoadResult, (pairs.map Prod.fst).Nodup → (tn, fn) ∈ pairs →
    (load_fold dir pairs acc).store tn =
      match dir fn with
      | some csv => some csv
      | none => acc.store tn := by
  induction pairs with
  | nil =>
    intro acc _ hmem
    cases hmem
  | cons p t ih =>
    intro acc hnd hmem
    simp only [List.map_cons, List.nodup_cons] at hnd
    rw [show load_fold dir (p :: t) acc = load_fold dir t (load_step dir acc p) from rfl]
    rcases List.mem_cons.mp hmem with hEq | hmem'
    · subst hEq
      have htn : tn ∉ t.map Prod.fst := hnd.1
      rw [load_fold_store_of_not_mem dir t tn _ htn]
      unfold load_step
      cases hd : dir fn
      · rfl
      · exact Function.update_same _ _ _
    · have hne : tn ≠ p.1 := by
        intro hEq
        exact hnd.1 (hEq ▸ List.mem_map.mpr ⟨(tn, fn), hmem', rfl⟩)
      rw [ih _ hnd.2 hmem']
      cases hd : dir fn
      · exact load_step_store_ne dir acc p tn hne
      · rfl

theorem load_fold_warnings (dir : SourceDir) (pairs : List (String × String)) :
    ∀ acc : LoadResult, (load_fold dir pairs acc).warnings
      = acc.warnings ++ (pairs.filter fun p => (dir p.2).isNone).map Prod.snd := by
  induction pairs with
  | nil =>
    intro acc
    simp [load_fold]
  | cons p t ih =>
    intro acc
    rw [show load_fold dir (p :: t) acc = load_fold dir t (load_step dir acc p) from rfl, ih]
    cases hd : dir p.2 <;> simp [load_step, hd, List.filter_cons]

/-- C2: for every content of the nonprofit_quality table, the rows returned by
data_quality_overview are ordered by the tier precedence of its ORDER BY CASE
expression: tier high (1) first, then medium (2), then low (3), and every
other data_quality value (tier 4) after those three, regardless of the
alphabetical or insertion order of the values. -/
theorem c2_tier_ordering (nonprofit_quality : List QualityRow) :
    List.Sorted tierLe (data_quality_overview nonprofit_quality) := by
  unfold data_quality_overview
  exact List.sorted_insertionSort tierLe _

/-- C3: after a single create_database pass over a source directory, a table
of a configured logical name exists in the store iff its source file existed;
names outside the six-pair map never gain a table (no placeholder is created);
and the warnings are exactly the configured filenames that were missing, so a
missing file is non-fatal and every remaining pair still loads. -/
theorem c3_table_presence (dir : SourceDir) :
    (∀ tn fn, (tn, fn) ∈ csv_files →
      (((create_database dir).store tn).isSome ↔ (dir fn).isSome))
    ∧ (∀ tn, tn ∉ csv_files.map Prod.fst → (create_database dir).store tn = none)
    ∧ ∀ fn, fn ∈ (create_database dir).warnings
        ↔ ∃ tn, (tn, fn) ∈ csv_files ∧ dir fn = none := by
  refine ⟨?_, ?_, ?_⟩
  · intro tn fn hmem
    rw [show create_database dir = load_fold dir csv_files ⟨fun _ => none, []⟩ from rfl,
      load_fold_store_of_mem dir csv_files tn fn _ (by decide) hmem]
    cases dir fn <;> simp
  · intro tn h
    rw [show create_database dir = load_fold dir csv_files ⟨fun _ => none, []⟩ from rfl,
      load_fold_store_of_not_mem dir csv_files tn _ h]
  · intro fn
    rw [show create_database dir = load_fold dir csv_files ⟨fun _ => none, []⟩ from rfl,
      load_fold_warnings dir csv_files _]
    simp only [List.nil_append, List.mem_map, List.mem_filter]
    constructor
    · rintro ⟨p, ⟨hp, hnone⟩, rfl⟩
      exact ⟨p.1, by simpa using hp, by simpa [Option.isNone_iff_eq_none] using hnone⟩
    · rintro ⟨tn, hmem, hnone⟩
      exact ⟨(tn, fn), ⟨hmem, by simp [hnone]⟩, rfl⟩

/-- C4: loading is idempotent: a second create_database pass over the same
directory leaves every table exactly as after the first pass, because each
present file replaces its table in full and each absent file touches nothing,
so nothing is ever merged or appended across passes. -/
theorem c4_load_idempotent (dir : SourceDir) (tn : String) :
    (load_pass dir (create_database dir).store).store tn = (create_database dir).store tn := by
  by_cases h : ∃ fn, (tn, fn) ∈ csv_files
  · obtain ⟨fn, hfn⟩ := h
    have h1 : (create_database dir).store tn =
        match dir fn with
        | some csv => some csv
        | none => none := by
      rw [show create_database dir = load_fold dir csv_files ⟨fun _ => none, []⟩ from rfl,
        load_fold_store_of_mem dir csv_files tn fn _ (by decide) hfn]
    have h2 : (load_pass dir (create_database dir).store).store tn =
        match dir fn with
        | some csv => some csv
        | none => (create_database dir).store tn := by
      rw [show load_pass dir (create_database dir).store
          = load_fold dir csv_files ⟨(create_database dir).store, []⟩ from rfl,
        load_fold_store_of_mem dir csv_files tn fn _ (by decide) hfn]
    rw [h2, h1]
    cases dir fn <;> rfl
  · have h' : tn ∉ csv_files.map Prod.fst := by
      intro hmem
      rcases List.mem_map.mp hmem with ⟨p, hp, hfst⟩
      refine h ⟨p.2, ?_⟩
      rw [← hfst]
      simpa using hp
    rw [show load_pass dir (create_database dir).store
        = load_fold dir csv_files ⟨(create_database dir).store, []⟩ from rfl,
      load_fold_store_of_not_mem dir csv_files tn _ h']

/-- C9: for every table loaded by the create_database pass from a present
source file with N data rows and M header columns, get_table_info reports
row_count = N, a column-descriptor sequence of length exactly M, and a sample
equal to (hence no longer than) the first 5 rows in table order. -/
theorem c9_table_info (dir : SourceDir) (tn fn : String) (csv : CsvFile)
    (hmem : (tn, fn) ∈ csv_files) (hdir : dir fn = some csv) :
    ∃ info, get_table_info (create_database dir).store tn = some info
      ∧ info.row_count = csv.rows.length
      ∧ info.columns.length = csv.header.length
      ∧ info.sample_data = csv.rows.take 5
      ∧ info.sample_data.length ≤ 5 := by
  have hstore : (create_database dir).store tn = some csv := by
    rw [show create_database dir = load_fold dir csv_files ⟨fun _ => none, []⟩ from rfl,
      load_fold_store_of_mem dir csv_files tn fn _ (by decide) hmem, hdir]
  have hinfo : get_table_info (create_database dir).store tn =
      some { row_count := csv.rows.length, columns := csv.header,
             sample_data := csv.rows.take 5 } := by
    unfold get_table_info
    rw [hstore]
    rfl
  exact ⟨_, hinfo, rfl, rfl, rfl, List.length_take_le 5 _⟩

/-- C9 witness: the theorem applied to a directory holding grants.csv with two
data rows and two columns. -/
theorem c9_table_info_witness :
    (("grants", "grants.csv") ∈ csv_files ∧ dir_w "grants.csv" = some csv_w)
    ∧ ∃ info, get_table_info (create_database dir_w).store "grants" = some info
      ∧ info.row_count = csv_w.rows.length
      ∧ info.columns.length = csv_w.header.length
      ∧ info.sample_data = csv_w.rows.take 5
      ∧ info.sample_data.length ≤ 5 :=
  ⟨⟨by decide, by decide⟩,
    c9_table_info dir_w "grants" "grants.csv" csv_w (by decide) (by decide)⟩

/-- C6 counterexample: with the negative limit -1 substituted into the query
text, SQLite places no upper bound on the number of rows, so the query over a
one-grant table returns one row, which is more than -1: the claim as stated
fails for negative limits. -/
theorem c6_limit_counterexample :
    ¬ (((top_grants_by_funding (-1) [grant_cx]).length : Int) ≤ -1) := by decide

/-- C6 amended: for every nonnegative integer limit K, each limit-accepting
query returns at most K rows, whatever the table contents. -/
theorem c6_limit_bounded (k : Int) (hk : 0 ≤ k) (grants : List GrantRow)
    (non_profits_final : List NonProfitFinalRow) (nonprofit_quality : List QualityRow) :
    ((top_grants_by_funding k grants).length : Int) ≤ k
    ∧ ((top_performers k non_profits_final nonprofit_quality).length : Int) ≤ k :=
  ⟨length_sqlLimit_le k hk _, length_sqlLimit_le k hk _⟩

/-- C6 witness: the amended bound instantiated at limit 3. -/
theorem c6_limit_bounded_witness :
    (0 : Int) ≤ 3 ∧ (((top_grants_by_funding 3 [grant_cx]).length : Int) ≤ 3
      ∧ ((top_performers 3 [] []).length : Int) ≤ 3) :=
  ⟨by decide, c6_limit_bounded 3 (by decide) [grant_cx] [] []⟩

/-- C7: a nonprofit_anomalies row with is_anomalous = 0 contributes to no
group of anomaly_summary: removing such a row from anywhere in the table
leaves every reported count, average, minimum and maximum unchanged, even
when the row's anomaly_type and risk_level match a reported group. -/
theorem c7_anomaly_filter (l1 l2 : List AnomalyRow) (r : AnomalyRow)
    (h : r.is_anomalous = some 0) :
    anomaly_summary (l1 ++ r :: l2) = anomaly_summary (l1 ++ l2) := by
  have hfalse : decide (r.is_anomalous = some 1) = false := by
    rw [h]
    decide
  unfold anomaly_summary
  simp only [List.filter_append, List.filter_cons, hfalse, Bool.false_eq_true, if_false]

/-- C7 witness: the filter theorem applied to a singleton table whose only row
has is_anomalous = 0 but carries the high risk level. -/
theorem c7_anomaly_filter_witness :
    anomaly_cx.is_anomalous = some 0
    ∧ anomaly_summary ([] ++ anomaly_cx :: []) = anomaly_summary ([] ++ []) :=
  ⟨rfl, c7_anomaly_filter [] [] anomaly_cx rfl⟩

/-- C5: join semantics differ between the two org-level queries.  An org row
with a non-NULL impact score and no EIN match in nonprofit_quality still
appears in top_performers — the LEFT JOIN keeps it, with confidence_score
reported as NULL — whenever the result fits within the limit; while every row
high_risk_organizations returns is built from an org INNER-joined to a
matching anomaly row, so an org with no match in nonprofit_anomalies is
excluded entirely. -/
theorem c5_join_semantics (non_profits_final : List NonProfitFinalRow)
    (nonprofit_quality : List QualityRow) (nonprofit_anomalies : List AnomalyRow)
    (limit : Int) (nf : NonProfitFinalRow)
    (hmem : nf ∈ non_profits_final)
    (himp : nf.impact_score_numeric.isSome = true)
    (hnoq : ∀ q ∈ nonprofit_quality, einEq nf.EIN q.EIN = false)
    (hfit : ((top_performers_rows non_profits_final nonprofit_quality).length : Int) ≤ limit) :
    (performerRow nf none ∈ top_performers limit non_profits_final nonprofit_quality
      ∧ (performerRow nf none).confidence_score = none)
    ∧ ∀ row ∈ high_risk_organizations non_profits_final nonprofit_anomalies,
        ∃ o a, o ∈ non_profits_final ∧ a ∈ nonprofit_anomalies
          ∧ einEq o.EIN a.EIN = true ∧ row = highRiskRow o a := by
  refine ⟨⟨?_, rfl⟩, ?_⟩
  · rw [top_performers, sqlLimit_eq_of_length_le hfit]
    unfold top_performers_rows
    rw [List.mem_insertionSort]
    apply List.mem_filter.mpr
    refine ⟨?_, himp⟩
    apply List.mem_flatMap.mpr
    refine ⟨nf, hmem, ?_⟩
    have hnil : nonprofit_quality.filter (fun q => einEq nf.EIN q.EIN) = [] := by
      apply List.filter_eq_nil_iff.mpr
      intro q hq
      simp [hnoq q hq]
    rw [hnil]
    exact List.mem_singleton.mpr rfl
  · intro row hrow
    unfold high_risk_organizations at hrow
    replace hrow := (List.mem_insertionSort _).mp (mem_of_mem_sqlLimit hrow)
    rcases List.mem_map.mp hrow with ⟨p, hp, hpeq⟩
    rcases List.mem_filter.mp hp with ⟨hpj, _⟩
    rcases List.mem_flatMap.mp hpj with ⟨o, ho, hpo⟩
    rcases List.mem_map.mp hpo with ⟨a, ha, hpair⟩
    rcases List.mem_filter.mp ha with ⟨haa, hae⟩
    subst hpair
    exact ⟨o, a, ho, haa, hae, hpeq.symm⟩

/-- C5 witness: the theorem applied to a store with one org row carrying a
non-NULL impact score and empty quality and anomaly tables. -/
theorem c5_join_semantics_witness :
    (nf_w ∈ [nf_w] ∧ nf_w.impact_score_numeric.isSome = true
      ∧ (∀ q ∈ ([] : List QualityRow), einEq nf_w.EIN q.EIN = false)
      ∧ ((top_performers_rows [nf_w] []).length : Int) ≤ 25)
    ∧ ((performerRow nf_w none ∈ top_performers 25 [nf_w] []
        ∧ (performerRow nf_w none).confidence_score = none)
      ∧ ∀ row ∈ high_risk_organizations [nf_w] [],
          ∃ o a, o ∈ [nf_w] ∧ a ∈ ([] : List AnomalyRow)
            ∧ einEq o.EIN a.EIN = true ∧ row = highRiskRow o a) :=
  ⟨⟨by decide, by decide, by decide, by decide⟩,
    c5_join_semantics [nf_w] [] [] 25 nf_w (by decide) (by decide) (by decide) (by decide)⟩

/-- C10: when every non_profits_final row has a non-NULL EIN, the HAVING
eligible_nonprofits > 0 clause of grant_nonprofit_matching is redundant:
every group the cross join and grouping produce contains at least one joined
organization with a non-NULL EIN, so COUNT(DISTINCT EIN) is positive and the
query returns exactly the same rows as the same query without the clause. -/
theorem c10_having_redundant (today : String) (grants : List GrantRow)
    (non_profits_final : List NonProfitFinalRow)
    (hein : ∀ nf ∈ non_profits_final, (nf.EIN).isSome = true) :
    grant_nonprofit_matching today grants non_profits_final
      = grant_nonprofit_matching_without_having today grants non_profits_final := by
  have hfe : (grant_matching_groups today grants non_profits_final).filter
      (fun r => decide (0 < r.eligible_nonprofits))
      = grant_matching_groups today grants non_profits_final := by
    apply List.filter_eq_self.mpr
    intro r hr
    unfold grant_matching_groups at hr
    rcases List.mem_map.mp hr with ⟨kg, hkg, hreq⟩
    rcases mem_groupBy hkg with ⟨hg2, x, hx, hkey⟩
    have hxin : x ∈ kg.2 := by
      rw [hg2]
      exact List.mem_filter.mpr ⟨hx, by simp [hkey]⟩
    rcases List.mem_filter.mp hx with ⟨hxj, _⟩
    rcases List.mem_flatMap.mp hxj with ⟨g, _, hxg⟩
    rcases List.mem_map.mp hxg with ⟨nf0, hnf0, hpair⟩
    rcases Option.isSome_iff_exists.mp (hein nf0 hnf0) with ⟨e, he⟩
    subst hreq
    simp only [decide_eq_true_eq]
    apply List.length_pos.mpr
    apply List.ne_nil_of_mem
    apply mem_uniqKeys.mpr
    apply List.mem_filterMap.mpr
    refine ⟨some e, ?_, rfl⟩
    apply List.mem_map.mpr
    refine ⟨x, hxin, ?_⟩
    rw [← hpair]
    exact he
  rw [grant_nonprofit_matching, grant_nonprofit_matching_without_having, hfe]

/-- C10 witness: the equivalence applied to one open grant and one org with a
non-NULL EIN and impact score. -/
theorem c10_having_redundant_witness :
    (∀ nf ∈ [nf_w], (nf.EIN).isSome = true)
    ∧ grant_nonprofit_matching "" [grant_cx] [nf_w]
        = grant_nonprofit_matching_without_having "" [grant_cx] [nf_w] :=
  ⟨by decide, c10_having_redundant "" [grant_cx] [nf_w] (by decide)⟩

/-- C8: aggregate correctness of nonprofits_by_state.  On the concrete table
with three CA rows of incomes 10, 20, 30 and one NY row of income 5, the
result is a CA row with org_count 3, avg_income 20, total_income 60 ranked
before a NY row with org_count 1, avg_income 5; and for every table content,
no result row comes from a NULL or empty STATE. -/
theorem c8_state_aggregates :
    nonprofits_by_state non_profits_c8
      = [{ STATE := some "CA", org_count := 3, avg_income := some 20, avg_assets := none,
           avg_revenue := none, total_income := some 60 },
         { STATE := some "NY", org_count := 1, avg_income := some 5, avg_assets := none,
           avg_revenue := none, total_income := some 5 }]
    ∧ ∀ (t : List NonProfitRow), ∀ r ∈ nonprofits_by_state t,
        ∃ s, r.STATE = some s ∧ s ≠ "" := by
  constructor
  · simp [nonprofits_by_state, non_profits_c8, groupBy, uniqKeys, sqlAvg, sqlSum,
      sqlLimit, orgCountDesc, List.insertionSort, List.orderedInsert, List.filter_cons]
    norm_num
  · intro t r hr
    unfold nonprofits_by_state at hr
    replace hr := (List.mem_insertionSort _).mp (mem_of_mem_sqlLimit hr)
    rcases List.mem_map.mp hr with ⟨kg, hkg, hreq⟩
    rcases mem_groupBy hkg with ⟨_, x, hx, hkey⟩
    rcases List.mem_filter.mp hx with ⟨_, hcond⟩
    rw [Bool.and_eq_true] at hcond
    rcases Option.isSome_iff_exists.mp hcond.1 with ⟨s, hs⟩
    have hne : x.STATE ≠ some "" := of_decide_eq_true hcond.2
    have hrSTATE : r.STATE = kg.1 := by rw [← hreq]
    refine ⟨s, ?_, fun hEq => hne (by rw [hs, hEq])⟩
    rw [hrSTATE, ← hkey]
    exact hs

/-- C1 counterexample: on quality_cx exactly 25 percent of the rows of its one
group have has_financial = 1, yet the value 25 appears nowhere in the query
result — orgs_with_financial is the count 1 and the only percentage column is
mission_pct — so the query does not report a presence percentage for all
three flags. -/
theorem c1_overview_counterexample :
    data_quality_overview quality_cx = [quality_cx_row]
    ∧ ((quality_cx.countP fun r => decide (r.has_financial = some 1) : ℚ)
        / quality_cx.length) * 100 = 25
    ∧ (quality_cx_row.org_count : ℚ) ≠ 25
    ∧ quality_cx_row.avg_confidence ≠ some 25
    ∧ quality_cx_row.orgs_with_mission ≠ 25
    ∧ quality_cx_row.orgs_with_financial ≠ 25
    ∧ quality_cx_row.orgs_with_impact ≠ 25
    ∧ quality_cx_row.mission_pct ≠ 25 := by
  refine ⟨?_, ?_, ?_, ?_, ?_, ?_, ?_, ?_⟩
  · simp [data_quality_overview, quality_cx, quality_cx_row, groupBy, uniqKeys, sqlAvg,
      round2, List.insertionSort, List.orderedInsert, List.filter_cons]
    norm_num
  · norm_num [quality_cx, List.countP_cons]
  · norm_num [quality_cx_row]
  · norm_num [quality_cx_row]
  · norm_num [quality_cx_row]
  · norm_num [quality_cx_row]
  · norm_num [quality_cx_row]
  · norm_num [quality_cx_row]

/-- C1 amended: for every nonprofit_quality table and every group row of
data_quality_overview, mission_pct is the rounded presence percentage of
has_mission over the rows of that group, while orgs_with_financial and
orgs_with_impact (like orgs_with_mission) are plain counts of rows with the
flag equal to 1 — the query computes a percentage for has_mission only. -/
theorem c1_overview_flag_reporting (nonprofit_quality : List QualityRow)
    (g : QualityOverviewRow) (hg : g ∈ data_quality_overview nonprofit_quality) :
    g.mission_pct = round2
      ((((nonprofit_quality.filter fun r => decide (r.data_quality = g.data_quality)).countP
          fun r => decide (r.has_mission = some 1) : ℚ)
        / (nonprofit_quality.filter fun r => decide (r.data_quality = g.data_quality)).length)
      * 100)
    ∧ g.orgs_with_mission
      = ((nonprofit_quality.filter fun r => decide (r.data_quality = g.data_quality)).countP
          fun r => decide (r.has_mission = some 1) : ℚ)
    ∧ g.orgs_with_financial
      = ((nonprofit_quality.filter fun r => decide (r.data_quality = g.data_quality)).countP
          fun r => decide (r.has_financial = some 1) : ℚ)
    ∧ g.orgs_with_impact
      = ((nonprofit_quality.filter fun r => decide (r.data_quality = g.data_quality)).countP
          fun r => decide (r.has_impact = some 1) : ℚ) := by
  unfold data_quality_overview at hg
  replace hg := (List.mem_insertionSort _).mp hg
  rcases List.mem_map.mp hg with ⟨kg, hkg, hgeq⟩
  rcases mem_groupBy hkg with ⟨hg2, _⟩
  subst hgeq
  simp only
  rw [← hg2, sum_ite_one_eq_countP (fun r : QualityRow => r.has_mission = some 1) kg.2,
    sum_ite_one_eq_countP (fun r : QualityRow => r.has_financial = some 1) kg.2,
    sum_ite_one_eq_countP (fun r : QualityRow => r.has_impact = some 1) kg.2]
  exact ⟨rfl, rfl, rfl, rfl⟩

/-- C1 witness: the amended statement instantiated at the one-group table
quality_w, whose single result row is quality_w_row. -/
theorem c1_overview_flag_reporting_witness :
    quality_w_row ∈ data_quality_overview quality_w
    ∧ (quality_w_row.mission_pct = round2
        ((((quality_w.filter fun r => decide (r.data_quality = quality_w_row.data_quality)).countP
            fun r => decide (r.has_mission = some 1) : ℚ)
          / (quality_w.filter fun r =>
              decide (r.data_quality = quality_w_row.data_quality)).length)
        * 100)
      ∧ quality_w_row.orgs_with_mission
        = ((quality_w.filter fun r => decide (r.data_quality = quality_w_row.data_quality)).countP
            fun r => decide (r.has_mission = some 1) : ℚ)
      ∧ quality_w_row.orgs_with_financial
        = ((quality_w.filter fun r => decide (r.data_quality = quality_w_row.data_quality)).countP
            fun r => decide (r.has_financial = some 1) : ℚ)
      ∧ quality_w_row.orgs_with_impact
        = ((quality_w.filter fun r => decide (r.data_quality = quality_w_row.data_quality)).countP
            fun r => decide (r.has_impact = some 1) : ℚ)) := by
  have hmem : quality_w_row ∈ data_quality_overview quality_w := by
    simp [data_quality_overview, quality_w, quality_w_row, groupBy, uniqKeys, sqlAvg,
      round2, List.insertionSort, List.orderedInsert, List.filter_cons]
    norm_num
  exact ⟨hmem, c1_overview_flag_reporting quality_w quality_w_row hmem⟩
